import Mathlib

/-!
Shallow embedding of the end-to-end-encryption chat backend, covering the
key-distribution service (PreKey model, KeyService), the message delivery
and status tracker (Message model, MessageService), the presence service,
and the websocket connection registry.  Each definition is translated from
the corresponding JavaScript source file; document stores (MongoDB
collections, the Redis key space, the in-process connection Map) are
modelled as Lean lists, ObjectIds and device-id strings as `Nat` where only
identity matters, and `Date` values as `Nat` timestamps threaded through as
a `now` parameter.
-/

/-- Replace the first element of `l` satisfying `p` by `f` of it, leaving the
rest unchanged.  Models a `findOne` / in-place mutation / `save()` round trip
on a collection with a unique lookup key, and `Map.set` on an existing key. -/
def updateFirst {α : Type} (l : List α) (p : α → Bool) (f : α → α) : List α :=
  match l with
  | [] => []
  | h :: t => if p h then f h :: t else h :: updateFirst t p f

/-! ### PreKey store  (src/src/models/PreKey.js, src/src/services/keyService.js)

One document of the `PreKey` collection.  The compound index
`(userId, deviceId, keyId)` is unique, so that triple is the document
identity.  `createdAt` is the mongoose timestamp; `expiresAt` the absolute
expiry used both by the availability query and the TTL index. -/
structure PreKeyDoc where
  userId : Nat
  deviceId : Nat
  keyId : Nat
  publicKey : String
  isUsed : Bool
  usedAt : Option Nat
  usedBy : Option Nat
  expiresAt : Nat
  createdAt : Nat
  deriving Repr, DecidableEq

/-- The filter of `preKeySchema.statics.getAvailablePreKey`:
`{userId, deviceId, isUsed: false, expiresAt: {$gt: new Date()}}`. -/
def isAvailable (u d now : Nat) (k : PreKeyDoc) : Bool :=
  k.userId == u && k.deviceId == d && !k.isUsed && now < k.expiresAt

/-- `findOne(...).sort({createdAt: 1})`: among the matching documents, the one
with the least `createdAt`, earliest-stored first on ties (stable choice). -/
def getAvailablePreKey (store : List PreKeyDoc) (u d now : Nat) : Option PreKeyDoc :=
  (store.filter (isAvailable u d now)).foldl
    (fun acc k =>
      match acc with
      | none => some k
      | some b => if k.createdAt < b.createdAt then some k else some b)
    none

/-- `preKeySchema.methods.markAsUsed`: sets `isUsed`, `usedAt`, `usedBy` on
that one document and saves it (document identity = the unique
`(userId, deviceId, keyId)` index). -/
def markAsUsed (store : List PreKeyDoc) (k : PreKeyDoc) (usedByUserId now : Nat) :
    List PreKeyDoc :=
  updateFirst store
    (fun h => h.userId == k.userId && h.deviceId == k.deviceId && h.keyId == k.keyId)
    (fun h => { h with isUsed := true, usedAt := some now, usedBy := some usedByUserId })

/-- `KeyService.registerPreKeys`: builds one document per supplied
`{keyId, publicKey}` with `isUsed: false` and a 30-day `expiresAt`, and
`insertMany(..., {ordered: false})` — documents whose `(userId, deviceId,
keyId)` already exists are silently dropped (duplicate-key errors ignored).
Mongoose assigns the `createdAt` timestamps in array order, modelled as
`now + position`. -/
def registerPreKeys (store : List PreKeyDoc) (u d : Nat) (pks : List (Nat × String))
    (now expirationMs : Nat) : List PreKeyDoc :=
  (pks.foldl
    (fun (acc : List PreKeyDoc × Nat) pk =>
      let (s, i) := acc
      if s.any (fun k => k.userId == u && k.deviceId == d && k.keyId == pk.1) then
        (s, i + 1)
      else
        (s ++ [⟨u, d, pk.1, pk.2, false, none, none, now + expirationMs, now + i⟩], i + 1))
    (store, 0)).1

/-- The per-device body of `KeyService.getUserKeys`: read one available prekey
with `getAvailablePreKey`, and if one was found, mark it used with a second,
separate store operation; the bundle carries `{keyId, publicKey}` or omits the
field.  Returns the `oneTimePreKey` field and the store after both steps. -/
def fetchPreKeyForDevice (store : List PreKeyDoc) (u d requester now : Nat) :
    Option (Nat × String) × List PreKeyDoc :=
  match getAvailablePreKey store u d now with
  | none => (none, store)
  | some k => (some (k.keyId, k.publicKey), markAsUsed store k requester now)

/-- Two concurrent `getUserKeys` calls for the same device under the
interleaving in which both callers' `getAvailablePreKey` reads complete
before either caller's `markAsUsed` write.  Both reads and both writes are
the exact steps of `fetchPreKeyForDevice`; this schedule is legal because the
source performs the read (`findOne`) and the write (`save`) as two separate
awaited store operations with no transaction around them. -/
def racedGetUserKeys (store : List PreKeyDoc) (u d rA rB now : Nat) :
    Option (Nat × String) × Option (Nat × String) × List PreKeyDoc :=
  let kA := getAvailablePreKey store u d now
  let kB := getAvailablePreKey store u d now
  let s1 := match kA with
    | none => store
    | some k => markAsUsed store k rA now
  let s2 := match kB with
    | none => s1
    | some k => markAsUsed s1 k rB now
  (kA.map (fun k => (k.keyId, k.publicKey)), kB.map (fun k => (k.keyId, k.publicKey)), s2)

/-- Sequential (non-overlapping) `getUserKeys` calls, one per requester in
order: each call runs both steps of `fetchPreKeyForDevice` to completion
before the next starts. -/
def fetchSeq (store : List PreKeyDoc) (u d now : Nat) :
    List Nat → List (Option (Nat × String)) × List PreKeyDoc
  | [] => ([], store)
  | r :: rs =>
    let (res, s1) := fetchPreKeyForDevice store u d r now
    let (ress, s2) := fetchSeq s1 u d now rs
    (res :: ress, s2)

/-- Number of prekeys the availability query would match (the `available`
count of `getPreKeyStats`). -/
def countAvailable (store : List PreKeyDoc) (u d now : Nat) : Nat :=
  (store.filter (isAvailable u d now)).length

/-- The store for the ten-prekey scenario: key ids 0..9 with public keys
pk0..pk9 registered through `registerPreKeys` on an empty pool for device 3
of user 7 at time 100 with the 30-day expiry. -/
def c6Store : List PreKeyDoc :=
  registerPreKeys [] 7 3
    [(0, "pk0"), (1, "pk1"), (2, "pk2"), (3, "pk3"), (4, "pk4"),
     (5, "pk5"), (6, "pk6"), (7, "pk7"), (8, "pk8"), (9, "pk9")]
    100 2592000000

example : countAvailable c6Store 7 3 200 = 10 := by decide

example :
    (racedGetUserKeys [⟨7, 3, 1, "pkA", false, none, none, 1000, 5⟩] 7 3 21 22 0).1
      = some (1, "pkA") := by decide

/-! ### Message envelope and delivery status
(src/unnamed/part_006 — the mongoose `Message` model — and
`MessageService` in src/src/services/authService.js) -/

/-- The `messageType` enum of the message schema. -/
inductive MsgType
  | direct
  | group
  deriving DecidableEq, Repr

/-- The `deliveryStatus` / per-recipient `status` enum
`['sent', 'delivered', 'read', 'failed']`. -/
inductive DeliveryStatus
  | sent
  | delivered
  | read
  | failed
  deriving DecidableEq, Repr

/-- One entry of `recipientStatuses` (group messages).  `deviceId` is an
optional string in the schema: entries created by `sendMessage` carry no
`deviceId`, so the field is `none` there, while the status-acknowledgement
calls compare it with `===` against the caller's device id. -/
structure RecipientStatus where
  recipientId : Nat
  deviceId : Option String
  status : DeliveryStatus
  deliveredAt : Option Nat
  readAt : Option Nat
  deriving DecidableEq, Repr

/-- One document of the `Message` collection (ciphertext envelope).
`messageId` carries a unique index. -/
structure Message where
  messageId : String
  senderId : Nat
  senderDeviceId : String
  recipientId : Option Nat
  roomId : Option Nat
  messageType : MsgType
  encryptedContent : String
  deliveryStatus : DeliveryStatus
  deliveredAt : Option Nat
  readAt : Option Nat
  recipientStatuses : List RecipientStatus
  isDeleted : Bool
  expiresAt : Option Nat
  createdAt : Nat
  deriving DecidableEq, Repr

/-- The lookup of `this.recipientStatuses.find` in the mark methods:
`rs.recipientId.toString() === recipientId.toString() && rs.deviceId === deviceId`.
Both sides of the device comparison may be absent (`undefined === undefined`
holds, `undefined === "x"` does not), hence `Option String` equality. -/
def rsMatches (recipientId : Nat) (deviceId : Option String) (rs : RecipientStatus) : Bool :=
  rs.recipientId == recipientId && rs.deviceId == deviceId

/-- `messageSchema.methods.markDelivered`: for a direct message, set
`deliveryStatus`/`deliveredAt` unconditionally; for a group message, find the
`recipientStatuses` entry matching `(recipientId, deviceId)` and set it to
`delivered` if present, otherwise change nothing.  Then `save()`. -/
def Message.markDelivered (m : Message) (recipientId : Nat) (deviceId : Option String)
    (now : Nat) : Message :=
  if m.messageType = MsgType.direct then
    { m with deliveryStatus := DeliveryStatus.delivered, deliveredAt := some now }
  else
    let upd := updateFirst m.recipientStatuses (rsMatches recipientId deviceId)
      (fun rs => { rs with status := DeliveryStatus.delivered, deliveredAt := some now })
    { m with recipientStatuses := upd }

/-- `messageSchema.methods.markRead`: same shape as `markDelivered`, setting
`read`/`readAt`. -/
def Message.markRead (m : Message) (recipientId : Nat) (deviceId : Option String)
    (now : Nat) : Message :=
  if m.messageType = MsgType.direct then
    { m with deliveryStatus := DeliveryStatus.read, readAt := some now }
  else
    let upd := updateFirst m.recipientStatuses (rsMatches recipientId deviceId)
      (fun rs => { rs with status := DeliveryStatus.read, readAt := some now })
    { m with recipientStatuses := upd }

/-- `Message.findOne({messageId})`. -/
def findMessage (msgs : List Message) (mid : String) : Option Message :=
  msgs.find? (fun m => m.messageId == mid)

/-- `MessageService.markDelivered`: locate by `messageId` (error if absent),
apply the document method, save.  No check relates the caller to the
message's addressed recipient. -/
def serviceMarkDelivered (msgs : List Message) (mid : String) (recipientId : Nat)
    (deviceId : Option String) (now : Nat) : Except String (List Message × Message) :=
  match findMessage msgs mid with
  | none => Except.error "Message not found"
  | some m =>
    let m2 := m.markDelivered recipientId deviceId now
    Except.ok (updateFirst msgs (fun x => x.messageId == mid) (fun _ => m2), m2)

/-- `MessageService.markRead`: same shape as `serviceMarkDelivered`. -/
def serviceMarkRead (msgs : List Message) (mid : String) (recipientId : Nat)
    (deviceId : Option String) (now : Nat) : Except String (List Message × Message) :=
  match findMessage msgs mid with
  | none => Except.error "Message not found"
  | some m =>
    let m2 := m.markRead recipientId deviceId now
    Except.ok (updateFirst msgs (fun x => x.messageId == mid) (fun _ => m2), m2)

/-! ### Rooms and SendMessage (src/unnamed/part_004, authService.js) -/

/-- One entry of a room's `participants` array. -/
structure Participant where
  userId : Nat
  role : String
  deriving DecidableEq, Repr

/-- A `Room` document, restricted to the fields `sendMessage` touches. -/
structure Room where
  roomId : Nat
  participants : List Participant
  lastActivity : Nat
  deriving DecidableEq, Repr

/-- `roomSchema.methods.isParticipant`. -/
def Room.isParticipant (r : Room) (userId : Nat) : Bool :=
  r.participants.any (fun p => p.userId == userId)

/-- `Room.findById`. -/
def findRoom (rooms : List Room) (rid : Nat) : Option Room :=
  rooms.find? (fun r => r.roomId == rid)

/-- The `messageData` payload of `MessageService.sendMessage`, with the
optional addressing fields exactly as destructured by the source. -/
structure MessageData where
  messageId : String
  recipientId : Option Nat
  roomId : Option Nat
  messageType : MsgType
  encryptedContent : String
  expiresIn : Option Nat
  deriving Repr

/-- The document store visible to `MessageService.sendMessage`: the `Message`
and `Room` collections and the set of existing user ids (for
`User.findById(recipientId)`). -/
structure ChatState where
  messages : List Message
  rooms : List Room
  users : List Nat
  deriving Repr

/-- `MessageService.sendMessage`, step for step: (1) addressing validation
(direct requires `recipientId`, group requires `roomId`); (2) idempotency
lookup on `messageId`, returning the existing document unchanged; (3) direct:
recipient must exist; group: room must exist, sender must be a participant,
`recipientStatuses` snapshots the participants other than the sender with
status `sent` and no `deviceId`, and the room's `lastActivity` is saved;
(4) optional `expiresAt`; (5) `Message.create` with `deliveryStatus: 'sent'`.
Errors leave the store unchanged. -/
def sendMessage (st : ChatState) (senderId : Nat) (senderDeviceId : String)
    (md : MessageData) (now : Nat) : ChatState × Except String Message :=
  if md.messageType = MsgType.direct ∧ md.recipientId = none then
    (st, Except.error "Recipient ID required for direct messages")
  else if md.messageType = MsgType.group ∧ md.roomId = none then
    (st, Except.error "Room ID required for group messages")
  else
    match findMessage st.messages md.messageId with
    | some existing => (st, Except.ok existing)
    | none =>
      let expiresAt : Option Nat := md.expiresIn.map (fun e => now + e * 1000)
      match md.messageType with
      | MsgType.direct =>
        match md.recipientId with
        | none => (st, Except.error "Recipient ID required for direct messages")
        | some rid =>
          if st.users.contains rid then
            let m : Message :=
              { messageId := md.messageId, senderId := senderId,
                senderDeviceId := senderDeviceId, recipientId := some rid,
                roomId := none, messageType := MsgType.direct,
                encryptedContent := md.encryptedContent,
                deliveryStatus := DeliveryStatus.sent, deliveredAt := none,
                readAt := none, recipientStatuses := [], isDeleted := false,
                expiresAt := expiresAt, createdAt := now }
            ({ st with messages := st.messages ++ [m] }, Except.ok m)
          else
            (st, Except.error "Recipient not found")
      | MsgType.group =>
        match md.roomId with
        | none => (st, Except.error "Room ID required for group messages")
        | some rid =>
          match findRoom st.rooms rid with
          | none => (st, Except.error "Room not found")
          | some room =>
            if room.isParticipant senderId then
              let rss : List RecipientStatus :=
                (room.participants.filter (fun p => !(p.userId == senderId))).map
                  (fun p => ⟨p.userId, none, DeliveryStatus.sent, none, none⟩)
              let m : Message :=
                { messageId := md.messageId, senderId := senderId,
                  senderDeviceId := senderDeviceId, recipientId := none,
                  roomId := some rid, messageType := MsgType.group,
                  encryptedContent := md.encryptedContent,
                  deliveryStatus := DeliveryStatus.sent, deliveredAt := none,
                  readAt := none, recipientStatuses := rss, isDeleted := false,
                  expiresAt := expiresAt, createdAt := now }
              ({ st with
                  rooms := updateFirst st.rooms (fun r => r.roomId == rid)
                    (fun r => { r with lastActivity := now }),
                  messages := st.messages ++ [m] }, Except.ok m)
            else
              (st, Except.error "Not a member of this room")

/-! ### Presence (src/unnamed/part_009 — PresenceService — and
src/src/websocket/wsHandlers.js) -/

/-- One event published on the `presence` pub/sub channel (the fields the
claims depend on: `userId`, `deviceId`, `status`). -/
structure PresenceEvent where
  userId : Nat
  deviceId : Nat
  status : String
  deriving DecidableEq, Repr

/-- The shared state the presence code touches: the Redis keys
`presence:<userId>:<deviceId>` (TTL omitted — the claims are about explicit
removal), the per-user `isOnline` flag written to the `User` collection, and
the ordered list of events published on the `presence` channel. -/
structure PresenceState where
  markers : List (Nat × Nat)
  dbOnline : List (Nat × Bool)
  events : List PresenceEvent
  deriving DecidableEq, Repr

/-- `User.findByIdAndUpdate(userId, {isOnline: b, ...})`. -/
def setDbOnline (l : List (Nat × Bool)) (u : Nat) (b : Bool) : List (Nat × Bool) :=
  if l.any (fun p => p.1 == u) then
    updateFirst l (fun p => p.1 == u) (fun p => (p.1, b))
  else
    l ++ [(u, b)]

/-- `PresenceService.setOnline`: `setEx` the device marker, set the user
online in the database, publish an `online` event. -/
def setOnline (st : PresenceState) (u d : Nat) : PresenceState :=
  let ms := if st.markers.contains (u, d) then st.markers else st.markers ++ [(u, d)]
  { markers := ms, dbOnline := setDbOnline st.dbOnline u true,
    events := st.events ++ [⟨u, d, "online"⟩] }

/-- `PresenceService.setOffline`: delete the device marker, then
`redis.keys("presence:<userId>:*")`; only when no marker for that user
remains, mark the user offline in the database and publish one `offline`
event. -/
def setOffline (st : PresenceState) (u d : Nat) : PresenceState :=
  let ms := st.markers.filter (fun p => !(p == (u, d)))
  if (ms.filter (fun p => p.1 == u)).length == 0 then
    { markers := ms, dbOnline := setDbOnline st.dbOnline u false,
      events := st.events ++ [⟨u, d, "offline"⟩] }
  else
    { st with markers := ms }

/-- `WebSocketHandlers.handleDisconnection`: call `setOffline`, then publish
an `offline` presence event unconditionally (a second publish, independent of
whether any marker for the user remains). -/
def handleDisconnection (st : PresenceState) (u d : Nat) : PresenceState :=
  let st1 := setOffline st u d
  { st1 with events := st1.events ++ [⟨u, d, "offline"⟩] }

/-- The `offline` events for user `u` in a published-event list. -/
def offlineEvents (es : List PresenceEvent) (u : Nat) : List PresenceEvent :=
  es.filter (fun e => e.userId == u && e.status == "offline")

/-! ### Connection registry (src/unnamed/part_003 — WebSocketServer) -/

/-- `this.clients`: a `Map` from the client key `"userId:deviceId"` to the
socket, modelled as an association list keyed by the `(userId, deviceId)`
pair with sockets named by `Nat` ids. -/
def regSet (cs : List ((Nat × Nat) × Nat)) (k : Nat × Nat) (ws : Nat) :
    List ((Nat × Nat) × Nat) :=
  if cs.any (fun e => e.1 == k) then
    updateFirst cs (fun e => e.1 == k) (fun e => (e.1, ws))
  else
    cs ++ [(k, ws)]

/-- `Map.delete` on the client key. -/
def regDelete (cs : List ((Nat × Nat) × Nat)) (k : Nat × Nat) :
    List ((Nat × Nat) × Nat) :=
  cs.filter (fun e => !(e.1 == k))

/-- `Map.get` on the client key. -/
def regGet (cs : List ((Nat × Nat) × Nat)) (k : Nat × Nat) : Option Nat :=
  (cs.find? (fun e => e.1 == k)).map (fun e => e.2)

/-- The registry effect of a successful authenticated handshake in
`WebSocketServer.initialize`: `this.clients.set(clientKey, ws)` with
`clientKey` built from the authenticated `(userId, deviceId)`. -/
def wsConnect (cs : List ((Nat × Nat) × Nat)) (u d ws : Nat) :
    List ((Nat × Nat) × Nat) :=
  regSet cs (u, d) ws

/-- The registry effect of a socket's `close` event: the handler closes over
`clientKey` and runs `this.clients.delete(clientKey)` — keyed deletion only,
with no check that the map still holds the closing socket. -/
def wsClose (cs : List ((Nat × Nat) × Nat)) (u d : Nat) :
    List ((Nat × Nat) × Nat) :=
  regDelete cs (u, d)

/-! ### Base64 validation and key registration
(src/src/services/keyService.js) -/

/-- The standard base64 alphabet, in encoding order. -/
def b64Alphabet : List Char :=
  "ABCDEFGHIJKLMNOPQRSTUVWXYZabcdefghijklmnopqrstuvwxyz0123456789+/".toList

/-- Index of a character in the base64 alphabet, `none` for characters the
decoder ignores (padding, whitespace, anything invalid). -/
def b64Index (c : Char) : Option Nat :=
  b64Alphabet.findIdx? (fun a => a == c)

/-- Decode a list of six-bit groups to bytes the way `Buffer.from(str,
'base64')` does: 4 groups yield 3 bytes, a trailing 2 or 3 groups yield 1 or
2 bytes, a single trailing group is dropped. -/
def b64DecodeSixets : List Nat → List Nat
  | a :: b :: c :: d :: rest =>
    (a * 4 + b / 16) :: ((b % 16) * 16 + c / 4) :: ((c % 4) * 64 + d) ::
      b64DecodeSixets rest
  | [a, b] => [a * 4 + b / 16]
  | [a, b, c] => [a * 4 + b / 16, (b % 16) * 16 + c / 4]
  | _ => []

/-- Canonical base64 encoding with padding, as `buf.toString('base64')`. -/
def b64EncodeBytes : List Nat → List Char
  | b1 :: b2 :: b3 :: rest =>
    b64Alphabet.getD (b1 / 4) 'A' :: b64Alphabet.getD ((b1 % 4) * 16 + b2 / 16) 'A' ::
      b64Alphabet.getD ((b2 % 16) * 4 + b3 / 64) 'A' :: b64Alphabet.getD (b3 % 64) 'A' ::
      b64EncodeBytes rest
  | [b1, b2] =>
    [b64Alphabet.getD (b1 / 4) 'A', b64Alphabet.getD ((b1 % 4) * 16 + b2 / 16) 'A',
     b64Alphabet.getD ((b2 % 16) * 4) 'A', '=']
  | [b1] =>
    [b64Alphabet.getD (b1 / 4) 'A', b64Alphabet.getD ((b1 % 4) * 16) 'A', '=', '=']
  | [] => []

/-- `KeyService.isValidBase64`: false for a missing or empty string, else
`Buffer.from(str, 'base64').toString('base64') === str` — the string must be
its own canonical re-encoding. -/
def isValidBase64 (s : String) : Bool :=
  !s.isEmpty &&
    String.mk (b64EncodeBytes (b64DecodeSixets (s.toList.filterMap b64Index))) == s

example : isValidBase64 "AAAA" = true := by decide
example : isValidBase64 "AA==" = true := by decide
example : isValidBase64 "!!!" = false := by decide
example : isValidBase64 "" = false := by decide

/-- A device's `signedPreKey` subdocument. -/
structure SignedPreKey where
  keyId : Nat
  publicKey : String
  signature : String
  timestamp : Nat
  deriving DecidableEq, Repr

/-- One document of the `Device` collection, restricted to the fields
`registerDeviceKeys` touches. -/
structure Device where
  userId : Nat
  deviceId : Nat
  deviceName : String
  deviceType : String
  publicKey : String
  signedPreKey : SignedPreKey
  isActive : Bool
  isRevoked : Bool
  deriving DecidableEq, Repr

/-- One document of the `User` collection, restricted to the identity key
(first-writer-wins). -/
structure UserRec where
  userId : Nat
  identityPublicKey : Option String
  deriving DecidableEq, Repr

/-- The `keyData` payload of `KeyService.registerDeviceKeys`, with the
`signedPreKey` fields flattened. -/
structure KeyData where
  deviceId : Nat
  publicKey : String
  spkKeyId : Nat
  spkPublicKey : String
  spkSignature : String
  identityPublicKey : Option String
  preKeys : List (Nat × String)
  deviceName : Option String
  deviceType : Option String
  deriving Repr

/-- The document stores `registerDeviceKeys` touches. -/
structure KeyStoreState where
  users : List UserRec
  devices : List Device
  preKeys : List PreKeyDoc
  deriving DecidableEq, Repr

/-- `KeyService.registerDeviceKeys`: (1) validate only `publicKey` with
`isValidBase64`, throwing before any store access when it is malformed;
(2) upsert the device, overwriting `publicKey`/`signedPreKey` and setting
`isActive`; (3) set the user's `identityPublicKey` only if currently unset;
(4) if one-time prekeys were supplied, bulk-insert them via
`registerPreKeys` with the 30-day expiry, skipping `keyId` collisions.  The
`signedPreKey` and prekey public keys are stored without any validation. -/
def registerDeviceKeys (st : KeyStoreState) (userId : Nat) (kd : KeyData) (now : Nat) :
    KeyStoreState × Except String (Nat × String) :=
  if !(isValidBase64 kd.publicKey) then
    (st, Except.error "Invalid public key format")
  else
    let spk : SignedPreKey := ⟨kd.spkKeyId, kd.spkPublicKey, kd.spkSignature, now⟩
    let isDev : Device → Bool := fun d => d.userId == userId && d.deviceId == kd.deviceId
    let devices2 :=
      if st.devices.any isDev then
        updateFirst st.devices isDev
          (fun d => { d with publicKey := kd.publicKey, signedPreKey := spk, isActive := true })
      else
        st.devices ++ [⟨userId, kd.deviceId, kd.deviceName.getD "Unknown Device",
          kd.deviceType.getD "web", kd.publicKey, spk, true, false⟩]
    let users2 :=
      match kd.identityPublicKey with
      | none => st.users
      | some ipk =>
        updateFirst st.users (fun u => u.userId == userId)
          (fun u =>
            if u.identityPublicKey = none then { u with identityPublicKey := some ipk }
            else u)
    let pre2 :=
      if kd.preKeys.isEmpty then st.preKeys
      else registerPreKeys st.preKeys userId kd.deviceId kd.preKeys now 2592000000
    ({ users := users2, devices := devices2, preKeys := pre2 },
      Except.ok (kd.deviceId, kd.publicKey))

/-! ## Claim theorems -/

/-- Claim C1.  The claim asserts that for a device with exactly one available
one-time prekey, concurrent `FetchRecipientBundle` calls hand that prekey to
at most one caller, the read and the mark-as-used being one atomic
conditional store operation.  The code instead issues the read
(`PreKey.getAvailablePreKey`, a `findOne`) and the write
(`preKey.markAsUsed`, a separate `save`) as two independent store
operations; under the legal interleaving in which both callers read before
either writes, both callers receive the single available prekey. -/
theorem c1_prekey_race_two_winners :
    countAvailable [⟨7, 3, 1, "pkA", false, none, none, 1000, 5⟩] 7 3 0 = 1 ∧
    (racedGetUserKeys [⟨7, 3, 1, "pkA", false, none, none, 1000, 5⟩] 7 3 21 22 0).1
      = some (1, "pkA") ∧
    (racedGetUserKeys [⟨7, 3, 1, "pkA", false, none, none, 1000, 5⟩] 7 3 21 22 0).2.1
      = some (1, "pkA") := by
  decide

/-- Claim C2.  The claim asserts delivery status is monotonic: `MarkDelivered`
after `MarkRead` must leave the status `read`.  The code's
`messageSchema.methods.markDelivered` sets `deliveryStatus = 'delivered'`
unconditionally on a direct message, so a message already `read` regresses to
`delivered` (while its `readAt` stays set). -/
theorem c2_markDelivered_regresses_read :
    (((⟨"m1", 1, "devA", some 2, none, MsgType.direct, "ct", DeliveryStatus.sent,
        none, none, [], false, none, 0⟩ : Message).markRead 2 (some "devB")
        10).markDelivered 2 (some "devB") 20).deliveryStatus
        = DeliveryStatus.delivered ∧
    (((⟨"m1", 1, "devA", some 2, none, MsgType.direct, "ct", DeliveryStatus.sent,
        none, none, [], false, none, 0⟩ : Message).markRead 2 (some "devB")
        10).markDelivered 2 (some "devB") 20).readAt = some 10 := by
  decide

/-- Claim C3.  The claim asserts that for a group message, `MarkRead` by a
listed recipient sets exactly that recipient's `recipientStatuses` entry to
`read`.  `sendMessage` creates the entries with no `deviceId`, while
`markRead` looks the entry up with
`rs.recipientId === recipientId && rs.deviceId === deviceId`; with the
caller's actual device id the device comparison never holds, so no entry is
updated at all: after A sends to room [A, B, C] and B acknowledges read from
device devB, B's entry still has status `sent`. -/
theorem c3_group_markRead_updates_nothing :
    (serviceMarkRead
        (sendMessage ⟨[], [⟨5, [⟨1, "admin"⟩, ⟨2, "member"⟩, ⟨3, "member"⟩], 0⟩], [1, 2, 3]⟩
          1 "devA" ⟨"g1", none, some 5, MsgType.group, "ct", none⟩ 10).1.messages
        "g1" 2 (some "devB") 20).map (fun r => r.2.recipientStatuses)
      = Except.ok
          [⟨2, none, DeliveryStatus.sent, none, none⟩,
           ⟨3, none, DeliveryStatus.sent, none, none⟩] := by
  rfl

/-- Claim C5.  The claim asserts that a device disconnect publishes no
offline event while another device marker for the user remains, and that
removing the last marker publishes exactly one offline event.
`PresenceService.setOffline` implements that guard, but
`WebSocketHandlers.handleDisconnection` publishes a further `offline`
presence event unconditionally after calling it: with markers for devices 1
and 2 of user 1, disconnecting device 1 publishes one offline event (claim:
none), and then disconnecting device 2 brings the total to three (claim: one). -/
theorem c5_disconnect_publishes_offline_despite_live_device :
    (offlineEvents (handleDisconnection ⟨[(1, 1), (1, 2)], [(1, true)], []⟩ 1 1).events
      1).length = 1 ∧
    (offlineEvents (handleDisconnection
      (handleDisconnection ⟨[(1, 1), (1, 2)], [(1, true)], []⟩ 1 1) 1 2).events 1).length
      = 3 := by
  decide

/-- Claim C8.  The claim asserts last-writer-wins registration and that the
key still maps to the new socket after the displaced socket closes.  The
second handshake does replace the first (`Map.set`), but the close handler
of the displaced socket runs `this.clients.delete(clientKey)` keyed only by
`(userId, deviceId)`, with no check that the registry still holds the
closing socket: after socket 100 is displaced by socket 200 and then closes,
the registry no longer maps the key to any socket. -/
theorem c8_close_of_displaced_socket_unregisters_new :
    regGet (wsConnect (wsConnect [] 1 2 100) 1 2 200) (1, 2) = some 200 ∧
    regGet (wsClose (wsConnect (wsConnect [] 1 2 100) 1 2 200) 1 2) (1, 2) = none := by
  decide

/-- Claim C6: registering ten one-time prekeys and then issuing eleven
sequential bundle fetches (any requesters) returns the ten keys, one per
fetch, with pairwise distinct key ids consumed in `createdAt` order
(the store is strictly `createdAt`-ascending), and the eleventh fetch
returns no `oneTimePreKey` without error. -/
theorem c6_ten_fetches_distinct_oldest_first_then_none
    (r1 r2 r3 r4 r5 r6 r7 r8 r9 r10 r11 : Nat) :
    countAvailable c6Store 7 3 200 = 10 ∧
    List.Pairwise (fun a b => a.createdAt < b.createdAt) c6Store ∧
    (fetchSeq c6Store 7 3 200 [r1, r2, r3, r4, r5, r6, r7, r8, r9, r10, r11]).1 =
      [some (0, "pk0"), some (1, "pk1"), some (2, "pk2"), some (3, "pk3"),
       some (4, "pk4"), some (5, "pk5"), some (6, "pk6"), some (7, "pk7"),
       some (8, "pk8"), some (9, "pk9"), none] := by
  exact ⟨by decide, by decide, by rfl⟩

/-- Claim C4, counterexample.  The claim asserts the second `SendMessage`
with an existing `messageId` returns the first-persisted record even with a
different payload; but the addressing validation runs before the idempotency
lookup, so a retry whose payload lacks `recipientId` fails with a validation
error instead of returning the stored record. -/
theorem c4_second_call_different_payload_errors :
    (sendMessage
        ⟨[⟨"m1", 1, "devA", some 2, none, MsgType.direct, "ct", DeliveryStatus.sent,
          none, none, [], false, none, 0⟩], [], [1, 2]⟩
        1 "devA" ⟨"m1", none, none, MsgType.direct, "ct2", none⟩ 50).2 =
      Except.error "Recipient ID required for direct messages" := by
  rfl

/-- Claim C4, amended.  For payloads that pass the addressing-field
validation (direct has a `recipientId`, group has a `roomId`), a second
`sendMessage` with an existing `messageId` returns the first-persisted
record and leaves the store unchanged, whatever the rest of the payload is. -/
theorem c4_idempotent_on_valid_payload
    (st : ChatState) (senderId : Nat) (dev : String) (md : MessageData) (now : Nat)
    (m : Message)
    (hd : md.messageType = MsgType.direct → md.recipientId ≠ none)
    (hg : md.messageType = MsgType.group → md.roomId ≠ none)
    (hfind : findMessage st.messages md.messageId = some m) :
    sendMessage st senderId dev md now = (st, Except.ok m) := by
  have h1 : ¬(md.messageType = MsgType.direct ∧ md.recipientId = none) :=
    fun h => hd h.1 h.2
  have h2 : ¬(md.messageType = MsgType.group ∧ md.roomId = none) :=
    fun h => hg h.1 h.2
  simp [sendMessage, h1, h2, hfind]

/-- Witness for the amended C4 theorem: a different sender retries message
id m1 with a different recipient, content and expiry; the call returns the
originally persisted record and the store is unchanged. -/
theorem c4_idempotent_on_valid_payload_witness :
    findMessage [⟨"m1", 1, "devA", some 2, none, MsgType.direct, "ct",
        DeliveryStatus.sent, none, none, [], false, none, 0⟩] "m1" =
      some ⟨"m1", 1, "devA", some 2, none, MsgType.direct, "ct",
        DeliveryStatus.sent, none, none, [], false, none, 0⟩ ∧
    sendMessage
        ⟨[⟨"m1", 1, "devA", some 2, none, MsgType.direct, "ct", DeliveryStatus.sent,
          none, none, [], false, none, 0⟩], [], [1, 2]⟩
        3 "devC" ⟨"m1", some 9, none, MsgType.direct, "other-ct", some 60⟩ 50 =
      (⟨[⟨"m1", 1, "devA", some 2, none, MsgType.direct, "ct", DeliveryStatus.sent,
          none, none, [], false, none, 0⟩], [], [1, 2]⟩,
        Except.ok ⟨"m1", 1, "devA", some 2, none, MsgType.direct, "ct",
          DeliveryStatus.sent, none, none, [], false, none, 0⟩) :=
  ⟨rfl, c4_idempotent_on_valid_payload _ 3 "devC" _ 50 _ (by decide) (by decide) rfl⟩

/-- Claim C7: a group send by a room member persists `recipientStatuses`
snapshotting the roster at send time minus the sender — one `sent` entry per
other participant, none for the sender, with pairwise distinct recipient ids
when the roster has no duplicate user ids; the envelope is appended to the
message store and the snapshot is a pure copy of the roster at `now` (later
roster changes cannot alter the persisted list). -/
theorem c7_group_snapshot_roster_minus_sender
    (st : ChatState) (senderId : Nat) (dev : String) (md : MessageData)
    (now rid : Nat) (room : Room)
    (htype : md.messageType = MsgType.group)
    (hrid : md.roomId = some rid)
    (hfresh : findMessage st.messages md.messageId = none)
    (hroom : findRoom st.rooms rid = some room)
    (hmem : room.isParticipant senderId = true)
    (hnodup : (room.participants.map Participant.userId).Nodup) :
    ∃ st2 m,
      sendMessage st senderId dev md now = (st2, Except.ok m) ∧
      m.recipientStatuses =
        (room.participants.filter (fun p => !(p.userId == senderId))).map
          (fun p => ⟨p.userId, none, DeliveryStatus.sent, none, none⟩) ∧
      (∀ e ∈ m.recipientStatuses,
        e.status = DeliveryStatus.sent ∧ e.recipientId ≠ senderId) ∧
      (∀ p ∈ room.participants, p.userId ≠ senderId →
        ∃ e ∈ m.recipientStatuses, e.recipientId = p.userId) ∧
      (m.recipientStatuses.map RecipientStatus.recipientId).Nodup ∧
      st2.messages = st.messages ++ [m] := by
  obtain ⟨mid, mrec, mroom, mtype, mct, mexp⟩ := md
  simp only at htype hrid hfresh
  subst htype
  subst hrid
  refine ⟨{ st with
      rooms := updateFirst st.rooms (fun r => r.roomId == rid)
        (fun r => { r with lastActivity := now }),
      messages := st.messages ++ [⟨mid, senderId, dev, none, some rid, MsgType.group,
        mct, DeliveryStatus.sent, none, none,
        (room.participants.filter (fun p => !(p.userId == senderId))).map
          (fun p => ⟨p.userId, none, DeliveryStatus.sent, none, none⟩),
        false, mexp.map (fun e => now + e * 1000), now⟩] },
    ⟨mid, senderId, dev, none, some rid, MsgType.group, mct, DeliveryStatus.sent,
      none, none,
      (room.participants.filter (fun p => !(p.userId == senderId))).map
        (fun p => ⟨p.userId, none, DeliveryStatus.sent, none, none⟩),
      false, mexp.map (fun e => now + e * 1000), now⟩,
    ?_, rfl, ?_, ?_, ?_, rfl⟩
  · simp [sendMessage, hfresh, hroom, hmem]
  · intro e he
    simp only [List.mem_map, List.mem_filter] at he
    obtain ⟨p, ⟨hp, hps⟩, rfl⟩ := he
    refine ⟨rfl, ?_⟩
    simpa using hps
  · intro p hp hne
    refine ⟨⟨p.userId, none, DeliveryStatus.sent, none, none⟩, ?_, rfl⟩
    exact List.mem_map_of_mem _ (List.mem_filter.mpr ⟨hp, by simp [hne]⟩)
  · have hsub : ((room.participants.filter (fun p => !(p.userId == senderId))).map
        Participant.userId).Sublist (room.participants.map Participant.userId) :=
      (List.filter_sublist room.participants).map Participant.userId
    have hmm : ((room.participants.filter (fun p => !(p.userId == senderId))).map
        (fun p => (⟨p.userId, none, DeliveryStatus.sent, none, none⟩ : RecipientStatus))).map
        RecipientStatus.recipientId =
        (room.participants.filter (fun p => !(p.userId == senderId))).map
          Participant.userId := by
      simp [List.map_map]
    rw [hmm]
    exact hnodup.sublist hsub

/-- Witness for C7: user 1 sends to room 5 = [1, 2, 3]; the persisted
snapshot has exactly the `sent` entries for users 2 and 3. -/
theorem c7_group_snapshot_roster_minus_sender_witness :
    (⟨5, [⟨1, "admin"⟩, ⟨2, "member"⟩, ⟨3, "member"⟩], 0⟩ : Room).isParticipant 1 = true ∧
    ((⟨5, [⟨1, "admin"⟩, ⟨2, "member"⟩, ⟨3, "member"⟩], 0⟩ : Room).participants.map
      Participant.userId).Nodup ∧
    (∃ st2 m,
      sendMessage ⟨[], [⟨5, [⟨1, "admin"⟩, ⟨2, "member"⟩, ⟨3, "member"⟩], 0⟩], [1, 2, 3]⟩
          1 "devA" ⟨"g1", none, some 5, MsgType.group, "ct", none⟩ 10 =
        (st2, Except.ok m) ∧
      m.recipientStatuses =
        ((⟨5, [⟨1, "admin"⟩, ⟨2, "member"⟩, ⟨3, "member"⟩], 0⟩ : Room).participants.filter
          (fun p => !(p.userId == 1))).map
            (fun p => ⟨p.userId, none, DeliveryStatus.sent, none, none⟩) ∧
      (∀ e ∈ m.recipientStatuses,
        e.status = DeliveryStatus.sent ∧ e.recipientId ≠ 1) ∧
      (∀ p ∈ (⟨5, [⟨1, "admin"⟩, ⟨2, "member"⟩, ⟨3, "member"⟩], 0⟩ : Room).participants,
        p.userId ≠ 1 → ∃ e ∈ m.recipientStatuses, e.recipientId = p.userId) ∧
      (m.recipientStatuses.map RecipientStatus.recipientId).Nodup ∧
      st2.messages = [] ++ [m]) :=
  ⟨by decide, by decide,
    c7_group_snapshot_roster_minus_sender
      ⟨[], [⟨5, [⟨1, "admin"⟩, ⟨2, "member"⟩, ⟨3, "member"⟩], 0⟩], [1, 2, 3]⟩
      1 "devA" ⟨"g1", none, some 5, MsgType.group, "ct", none⟩ 10 5
      ⟨5, [⟨1, "admin"⟩, ⟨2, "member"⟩, ⟨3, "member"⟩], 0⟩
      rfl rfl rfl rfl (by decide) (by decide)⟩

/-- Claim C9, counterexample.  The claim asserts a `ValidationError` before
persistence whenever any of `publicKey`, `signedPreKey` or the supplied
one-time prekeys is malformed.  `registerDeviceKeys` validates only the
top-level `publicKey`: with a valid `publicKey` but the non-base64 string
!!! as the signed-prekey public key and ?? as a one-time-prekey public key,
the call succeeds and both malformed keys are persisted. -/
theorem c9_malformed_inner_keys_not_rejected :
    isValidBase64 "!!!" = false ∧
    isValidBase64 "??" = false ∧
    (registerDeviceKeys ⟨[⟨1, none⟩], [], []⟩ 1
        ⟨3, "AAAA", 1, "!!!", "!!!", none, [(1, "??")], none, none⟩ 50).2 =
      Except.ok (3, "AAAA") ∧
    (registerDeviceKeys ⟨[⟨1, none⟩], [], []⟩ 1
        ⟨3, "AAAA", 1, "!!!", "!!!", none, [(1, "??")], none, none⟩ 50).1.devices.any
      (fun d => d.signedPreKey.publicKey == "!!!") = true ∧
    (registerDeviceKeys ⟨[⟨1, none⟩], [], []⟩ 1
        ⟨3, "AAAA", 1, "!!!", "!!!", none, [(1, "??")], none, none⟩ 50).1.preKeys.any
      (fun k => k.publicKey == "??") = true := by
  exact ⟨by decide, by decide, by rfl, by decide, by decide⟩

/-- Claim C9, amended.  Only the device `publicKey` encoding is validated:
when it is malformed, `registerDeviceKeys` fails with the validation error
before touching any store, leaving the Device, User-identity and prekey
collections exactly unchanged; malformed `signedPreKey` or one-time-prekey
encodings are not rejected. -/
theorem c9_only_publicKey_validated
    (st : KeyStoreState) (userId : Nat) (kd : KeyData) (now : Nat)
    (hbad : isValidBase64 kd.publicKey = false) :
    registerDeviceKeys st userId kd now =
      (st, Except.error "Invalid public key format") := by
  simp [registerDeviceKeys, hbad]

/-- Witness for the amended C9 theorem at a malformed `publicKey`. -/
theorem c9_only_publicKey_validated_witness :
    isValidBase64 "!!!" = false ∧
    registerDeviceKeys ⟨[⟨1, none⟩], [], []⟩ 1
        ⟨3, "!!!", 1, "AAAA", "sig", some "idk", [(1, "AAAA")], none, none⟩ 50 =
      (⟨[⟨1, none⟩], [], []⟩, Except.error "Invalid public key format") :=
  ⟨by decide, c9_only_publicKey_validated ⟨[⟨1, none⟩], [], []⟩ 1
    ⟨3, "!!!", 1, "AAAA", "sig", some "idk", [(1, "AAAA")], none, none⟩ 50 (by decide)⟩

/-- Claim C10: the service-level delivery acknowledgements locate the
message by `messageId` alone and, for a direct message, update
`deliveryStatus` regardless of the `(recipientId, deviceId)` arguments —
in particular for a caller who is not the addressed recipient (the
`rid ≠ bob` hypothesis is never needed to block the update, and neither
`serviceMarkDelivered` nor `serviceMarkRead` inspects it). -/
theorem c10_status_update_ignores_recipient_identity
    (msgs : List Message) (mid : String) (rid bob : Nat) (did : Option String)
    (now : Nat) (m : Message)
    (hfind : findMessage msgs mid = some m)
    (hdir : m.messageType = MsgType.direct)
    (hrec : m.recipientId = some bob)
    (hne : rid ≠ bob) :
    (∃ p, serviceMarkDelivered msgs mid rid did now = Except.ok p ∧
      p.2.deliveryStatus = DeliveryStatus.delivered) ∧
    (∃ p, serviceMarkRead msgs mid rid did now = Except.ok p ∧
      p.2.deliveryStatus = DeliveryStatus.read) := by
  constructor
  · refine ⟨(updateFirst msgs (fun x => x.messageId == mid)
        (fun _ => m.markDelivered rid did now), m.markDelivered rid did now), ?_, ?_⟩
    · simp [serviceMarkDelivered, hfind]
    · simp [Message.markDelivered, hdir]
  · refine ⟨(updateFirst msgs (fun x => x.messageId == mid)
        (fun _ => m.markRead rid did now), m.markRead rid did now), ?_, ?_⟩
    · simp [serviceMarkRead, hfind]
    · simp [Message.markRead, hdir]

/-- Witness for C10: user 9, who is not the recipient (user 2) of direct
message m1, acknowledges delivery and read; both updates go through. -/
theorem c10_status_update_ignores_recipient_identity_witness :
    findMessage [⟨"m1", 1, "devA", some 2, none, MsgType.direct, "ct",
        DeliveryStatus.sent, none, none, [], false, none, 0⟩] "m1" =
      some ⟨"m1", 1, "devA", some 2, none, MsgType.direct, "ct",
        DeliveryStatus.sent, none, none, [], false, none, 0⟩ ∧
    (9 : Nat) ≠ 2 ∧
    ((∃ p, serviceMarkDelivered
        [⟨"m1", 1, "devA", some 2, none, MsgType.direct, "ct", DeliveryStatus.sent,
          none, none, [], false, none, 0⟩] "m1" 9 (some "devX") 5 = Except.ok p ∧
        p.2.deliveryStatus = DeliveryStatus.delivered) ∧
      (∃ p, serviceMarkRead
        [⟨"m1", 1, "devA", some 2, none, MsgType.direct, "ct", DeliveryStatus.sent,
          none, none, [], false, none, 0⟩] "m1" 9 (some "devX") 5 = Except.ok p ∧
        p.2.deliveryStatus = DeliveryStatus.read)) :=
  ⟨rfl, by decide,
    c10_status_update_ignores_recipient_identity _ "m1" 9 2 (some "devX") 5 _
      rfl rfl rfl (by decide)⟩

/-- Witness for C6 at the concrete requesters 1..11. -/
theorem c6_ten_fetches_distinct_oldest_first_then_none_witness :
    countAvailable c6Store 7 3 200 = 10 ∧
    List.Pairwise (fun a b => a.createdAt < b.createdAt) c6Store ∧
    (fetchSeq c6Store 7 3 200 [1, 2, 3, 4, 5, 6, 7, 8, 9, 10, 11]).1 =
      [some (0, "pk0"), some (1, "pk1"), some (2, "pk2"), some (3, "pk3"),
       some (4, "pk4"), some (5, "pk5"), some (6, "pk6"), some (7, "pk7"),
       some (8, "pk8"), some (9, "pk9"), none] :=
  c6_ten_fetches_distinct_oldest_first_then_none 1 2 3 4 5 6 7 8 9 10 11
